import Mathlib

/-!
Verification of the resolution-and-dispatch pipeline of the knative-service
repository (cmd/launch-taskrun).  The Go source is shallowly embedded:

* time is a `Nat` tick count in nanoseconds (`time.Duration` values such as
  the circuit-breaker timeout and the cache TTL are converted to the same
  unit); `time.Since t` at instant `now` is `now - t` (truncated subtraction,
  matching the non-negative elapsed times the service observes);
* Go maps are association lists with unique keys (maintained by the setters);
* a raw JSON payload is an `Option Json`: `none` stands for bytes that do not
  parse as JSON, `some j` for bytes parsing to the value `j`;
* the external collaborators (k8s object store, Tekton scheduler) are passed
  in as explicit data: the cluster contents, a namespace-indexed configmap
  store, and a per-attempt success predicate for the scheduler call;
* log statements and mutexes are dropped (the embedding is sequential).
-/

deriving instance DecidableEq for Except

/-- JSON values as far as the service inspects them (`encoding/json`).
Numbers are abstracted to `Int`; none of the embedded code reads one. -/
inductive Json where
  | null : Json
  | bool (b : Bool) : Json
  | num (n : Int) : Json
  | str (s : String) : Json
  | arr (xs : List Json) : Json
  | obj (fields : List (String × Json)) : Json

/-- First binding of `key` in an association list of JSON object fields. -/
def lookupJson : List (String × Json) → String → Option Json
  | [], _ => none
  | (k, v) :: rest, key => if k = key then some v else lookupJson rest key

/-- Field access as Go `encoding/json` decodes objects: on duplicate keys the
later value overwrites the earlier one, so the last binding wins. -/
def jsonField (fields : List (String × Json)) (key : String) : Option Json :=
  lookupJson fields.reverse key

/-- `TaskRunConfig` (main.go).  All fields are strings read from the
configmap; an absent key leaves the Go zero value `""`. -/
structure TaskRunConfig where
  PolicyConfiguration : String := ""
  PublicKey : String := ""
  IgnoreRekor : String := ""
  VsaSigningKeySecretName : String := ""
  VsaUploadUrl : String := ""
  TaskName : String := ""
  Strict : String := ""
  Workers : String := ""
  Debug : String := ""
  CacheTTLMinutes : String := ""
  TektonTimeoutSeconds : String := ""
  VsaExpirationHours : String := ""
  TektonRetryAttempts : String := ""
  TektonRetryDelaySeconds : String := ""
  K8sRetryAttempts : String := ""
  K8sRetryDelaySeconds : String := ""
  CircuitBreakerThreshold : String := ""
  CircuitBreakerTimeout : String := ""
  TaskCpuRequest : String := ""
  TaskMemoryRequest : String := ""
  TaskMemoryLimit : String := ""
deriving DecidableEq

/-- The configuration with every configmap key absent (all zero values). -/
def emptyConfig : TaskRunConfig := {}

/-- The Go idiom `if parsed, err := strconv.Atoi(s); err == nil && parsed > 0
{ v = parsed }` guarded by `if s != ""`: a positive integer parse replaces the
default, anything else keeps it. -/
def parsePosInt (s : String) (dflt : Nat) : Nat :=
  if s = "" then dflt
  else match s.toInt? with
    | some n => if 0 < n then n.toNat else dflt
    | none => dflt

/-- `cachedConfigMap` (main.go): a config plus its insertion timestamp. -/
structure cachedConfigMap where
  config : TaskRunConfig
  timestamp : Nat
deriving DecidableEq

/-- `configMapCache` (main.go): namespace-keyed entries plus the global TTL
(a duration, in the same ticks as timestamps). -/
structure configMapCache where
  cache : List (String × cachedConfigMap)
  ttl : Nat
deriving DecidableEq

/-- Go map read `c.cache[key]`. -/
def lookupEntry : List (String × cachedConfigMap) → String → Option cachedConfigMap
  | [], _ => none
  | (k, e) :: rest, key => if k = key then some e else lookupEntry rest key

/-- Go `delete(c.cache, key)`. -/
def eraseKey : List (String × cachedConfigMap) → String → List (String × cachedConfigMap)
  | [], _ => []
  | (k, e) :: rest, key =>
      if k = key then eraseKey rest key else (k, e) :: eraseKey rest key

/-- Go map write `c.cache[key] = e` (replace or append). -/
def setKey : List (String × cachedConfigMap) → String → cachedConfigMap →
    List (String × cachedConfigMap)
  | [], key, e => [(key, e)]
  | (k, e0) :: rest, key, e =>
      if k = key then (key, e) :: rest else (k, e0) :: setKey rest key e

/-- `configMapCache.get` (main.go): a hit needs `time.Since(timestamp) < ttl`;
an expired entry is deleted before reporting the miss.  Returns the looked-up
config (`none` = miss) together with the cache state after the call. -/
def configMapCache.get (c : configMapCache) (now : Nat) (key : String) :
    Option TaskRunConfig × configMapCache :=
  match lookupEntry c.cache key with
  | some e =>
      if now - e.timestamp < c.ttl then (some e.config, c)
      else (none, { c with cache := eraseKey c.cache key })
  | none => (none, c)

/-- `configMapCache.set` (main.go): insert/replace the entry stamped `now`. -/
def configMapCache.set (c : configMapCache) (now : Nat) (key : String)
    (config : TaskRunConfig) : configMapCache :=
  { c with cache := setKey c.cache key ⟨config, now⟩ }

/-- `CircuitBreakerState` (main.go). -/
structure CircuitBreakerState where
  failures : Nat
  lastFailure : Nat
  isOpen : Bool
deriving DecidableEq

/-- `CIRCUIT_BREAKER_THRESHOLD`, default 5 (recordFailure). -/
def cbThreshold (config : TaskRunConfig) : Nat :=
  parsePosInt config.CircuitBreakerThreshold 5

/-- `CIRCUIT_BREAKER_TIMEOUT_SECONDS`, default 30, as a nanosecond
duration (`time.Duration(timeoutSeconds) * time.Second`). -/
def cbTimeoutNs (config : TaskRunConfig) : Nat :=
  parsePosInt config.CircuitBreakerTimeout 30 * 1000000000

/-- `TEKTON_RETRY_ATTEMPTS`, default 3 (retryWithBackoff). -/
def maxAttemptsOf (config : TaskRunConfig) : Nat :=
  parsePosInt config.TektonRetryAttempts 3

/-- `Service.checkCircuitBreaker` (main.go): `true` blocks the operation.
Closed circuit allows; an open circuit allows again once
`time.Since(lastFailure)` strictly exceeds the configured timeout. -/
def checkCircuitBreaker (config : TaskRunConfig) (now : Nat)
    (cb : CircuitBreakerState) : Bool :=
  if cb.isOpen = false then false
  else if cbTimeoutNs config < now - cb.lastFailure then false
  else true

/-- `Service.recordFailure` (main.go): bump the counter, stamp the time, and
open the circuit when the counter reaches the threshold while closed. -/
def recordFailure (config : TaskRunConfig) (now : Nat)
    (cb : CircuitBreakerState) : CircuitBreakerState :=
  let failures := cb.failures + 1
  { failures := failures
    lastFailure := now
    isOpen := if cbThreshold config ≤ failures ∧ cb.isOpen = false then true
              else cb.isOpen }

/-- `Service.recordSuccess` (main.go): reset the counter and close the
circuit; the last-failure timestamp is left as is. -/
def recordSuccess (cb : CircuitBreakerState) : CircuitBreakerState :=
  { cb with failures := 0, isOpen := false }

/-- Result of `Service.retryWithBackoff`. -/
inductive ExecResult where
  /-- `fn` returned nil on some attempt. -/
  | success : ExecResult
  /-- Fail-fast `circuit breaker is open` error; `fn` was never called. -/
  | circuitOpen : ExecResult
  /-- All attempts failed; the last error is returned. -/
  | exhausted : ExecResult
deriving DecidableEq

/-- The `for attempt := 1..maxAttempts` loop of `retryWithBackoff`.  `fn i`
is the outcome of the i-th invocation (0-based, `true` = nil error) and
`time i` the instant it completes; `calls` counts invocations so far,
`remaining` the attempts left.  Sleeping between attempts is dropped.
Returns the loop result, the circuit state after it, and the total number of
`fn` invocations. -/
def retryLoop (config : TaskRunConfig) (fn : Nat → Bool) (time : Nat → Nat) :
    Nat → Nat → CircuitBreakerState → ExecResult × CircuitBreakerState × Nat
  | calls, 0, cb => (ExecResult.exhausted, cb, calls)
  | calls, remaining + 1, cb =>
      if fn calls then (ExecResult.success, recordSuccess cb, calls + 1)
      else
        let cb2 := recordFailure config (time calls) cb
        if remaining = 0 then (ExecResult.exhausted, cb2, calls + 1)
        else retryLoop config fn time (calls + 1) remaining cb2

/-- `Service.retryWithBackoff` (main.go): check the breaker at `now`; if it
blocks, fail fast without touching state or invoking `fn`; otherwise run the
attempt loop with the configured attempt budget. -/
def retryWithBackoff (config : TaskRunConfig) (now : Nat) (time : Nat → Nat)
    (cb : CircuitBreakerState) (fn : Nat → Bool) :
    ExecResult × CircuitBreakerState × Nat :=
  if checkCircuitBreaker config now cb then (ExecResult.circuitOpen, cb, 0)
  else retryLoop config fn time 0 (maxAttemptsOf config) cb

/-- `konflux.ReleasePlan`: metadata name/namespace, `Spec.Application`,
`Spec.Target`, and the value of the
`release.appstudio.openshift.io/releasePlanAdmission` label. -/
structure ReleasePlan where
  name : String
  ns : String
  application : String
  target : String
  rpaLabel : String
deriving DecidableEq

/-- `konflux.ReleasePlanAdmission`: metadata name/namespace and
`Spec.Policy`. -/
structure ReleasePlanAdmission where
  name : String
  ns : String
  policy : String
deriving DecidableEq

/-- The cluster objects the resolution chain reads, in listing order. -/
structure Cluster where
  releasePlans : List ReleasePlan
  admissions : List ReleasePlanAdmission
deriving DecidableEq

/-- `konflux.Snapshot`: metadata name/namespace plus the raw JSON spec.
`spec` is the parse of the raw bytes `specRaw` (`none` = invalid JSON). -/
structure Snapshot where
  name : String
  ns : String
  spec : Option Json
  specRaw : String

/-- Errors of the konflux lookup chain (ecp_lookup.go). -/
inductive LookupError where
  | specUnmarshal : LookupError
  | noPlansInNamespace (ns : String) : LookupError
  | noPlanForApplication (app : String) : LookupError
  | admissionNotFound (ns name : String) : LookupError
deriving DecidableEq

/-- The `json.Unmarshal(snapshot.Spec, &spec)` in
`FindEnterpriseContractPolicy`, decoding into `struct { Application string }`:
fails on invalid JSON, on a non-object/non-null document, and on an
`application` field that is neither a string nor null; an absent or null
field leaves the zero value `""`. -/
def unmarshalApplication : Option Json → Except LookupError String
  | none => Except.error LookupError.specUnmarshal
  | some Json.null => Except.ok ""
  | some (Json.obj fields) =>
      match jsonField fields "application" with
      | none => Except.ok ""
      | some Json.null => Except.ok ""
      | some (Json.str s) => Except.ok s
      | some _ => Except.error LookupError.specUnmarshal
  | some _ => Except.error LookupError.specUnmarshal

/-- The `json.Unmarshal(specJSON, &snapshotSpec)` in `createTaskRun`,
decoding into `struct { Components []struct { ContainerImage string } }`:
`true` iff the decode succeeds. -/
def unmarshalComponentsOk : Option Json → Bool
  | none => false
  | some Json.null => true
  | some (Json.obj fields) =>
      match jsonField fields "components" with
      | none => true
      | some Json.null => true
      | some (Json.arr xs) =>
          xs.all fun c =>
            match c with
            | Json.null => true
            | Json.obj cf =>
                match jsonField cf "containerImage" with
                | none => true
                | some Json.null => true
                | some (Json.str _) => true
                | some _ => false
            | _ => false
      | some _ => false
  | some _ => false

/-- `konflux.FindReleasePlan` (ecp_lookup.go): list the plans of the
namespace (empty ⇒ error), keep those whose `Spec.Application` matches
(empty ⇒ error), and select the first match in listing order. -/
def FindReleasePlan (cluster : Cluster) (appName ns : String) :
    Except LookupError ReleasePlan :=
  if (cluster.releasePlans.filter fun rp => rp.ns = ns).isEmpty then
    Except.error (LookupError.noPlansInNamespace ns)
  else
    match (cluster.releasePlans.filter fun rp => rp.ns = ns).filter
        (fun rp => rp.application = appName) with
    | [] => Except.error (LookupError.noPlanForApplication appName)
    | rp :: _ => Except.ok rp

/-- `konflux.FindReleasePlanAdmission` (ecp_lookup.go): `Get` the admission
keyed by the plan's target namespace and its admission-reference label. -/
def FindReleasePlanAdmission (cluster : Cluster) (rp : ReleasePlan) :
    Except LookupError ReleasePlanAdmission :=
  match cluster.admissions.find?
      (fun a => a.ns = rp.target ∧ a.name = rp.rpaLabel) with
  | some rpa => Except.ok rpa
  | none => Except.error (LookupError.admissionNotFound rp.target rp.rpaLabel)

/-- The hard-coded fallback policy name in `FindEnterpriseContractPolicy`. -/
def defaultEcpName : String := "registry-standard"

/-- `konflux.FindEnterpriseContractPolicy` (ecp_lookup.go): extract the
application from the spec, chain the two lookups, default an empty policy to
`registry-standard`, and compose `"<rpaNamespace>/<policyName>"`. -/
def FindEnterpriseContractPolicy (cluster : Cluster) (snapshot : Snapshot) :
    Except LookupError String :=
  match unmarshalApplication snapshot.spec with
  | Except.error e => Except.error e
  | Except.ok appName =>
    match FindReleasePlan cluster appName snapshot.ns with
    | Except.error e => Except.error e
    | Except.ok rp =>
      match FindReleasePlanAdmission cluster rp with
      | Except.error e => Except.error e
      | Except.ok rpa =>
        let ecpName := if rpa.policy = "" then defaultEcpName else rpa.policy
        Except.ok (rpa.ns ++ "/" ++ ecpName)

/-- Build errors of `createTaskRun` (main.go). -/
inductive BuildError where
  /-- `TASK_NAME is required but not set in configmap`. -/
  | missingTaskName : BuildError
  /-- `failed to unmarshal snapshot spec to extract components`. -/
  | specUnmarshal : BuildError
  /-- `VSA upload URL is not set`. -/
  | missingUploadUrl : BuildError
deriving DecidableEq

/-- The fields of the assembled `tektonv1.TaskRun` that the service fills in
(createTaskRun, main.go).  Parameter values are all Tekton string params. -/
structure TaskRun where
  name : String
  ns : String
  labels : List (String × String)
  resolver : String
  taskRefKind : String
  taskRefName : String
  taskRefNamespace : String
  params : List (String × String)
  serviceAccountName : String
  workspaceSecretName : String
deriving DecidableEq

/-- The `createParamValue` helper: an empty string defaults to `"true"`. -/
def createParamValue (value : String) : String :=
  if value = "" then "true" else value

/-- The `createNumericParamValue` helper: an empty string defaults to the
given numeric default. -/
def createNumericParamValue (value defaultValue : String) : String :=
  if value = "" then defaultValue else value

/-- `Service.createTaskRun` (main.go): require `TASK_NAME`; unmarshal the
spec to extract components (invalid JSON ⇒ error); run the ECP lookup — a
lookup failure skips VSA creation with `(nil, nil)`; then require the upload
URL and assemble the TaskRun.  `nowSec` is the Unix-seconds timestamp used in
the generated name. -/
def createTaskRun (cluster : Cluster) (snapshot : Snapshot)
    (config : TaskRunConfig) (taskNamespace : String) (nowSec : Nat) :
    Except BuildError (Option TaskRun) :=
  if config.TaskName = "" then Except.error BuildError.missingTaskName
  else if unmarshalComponentsOk snapshot.spec = false then
    Except.error BuildError.specUnmarshal
  else
    match FindEnterpriseContractPolicy cluster snapshot with
    | Except.error _ => Except.ok none
    | Except.ok ecp =>
      if config.VsaUploadUrl = "" then Except.error BuildError.missingUploadUrl
      else Except.ok (some
        { name := "verify-conforma-" ++ snapshot.name ++ "-" ++ toString nowSec
          ns := taskNamespace
          labels :=
            [("app.kubernetes.io/name", "verify-and-create-vsa"),
             ("app.kubernetes.io/instance", snapshot.name),
             ("app.kubernetes.io/component", "conforma"),
             ("app.kubernetes.io/part-of", "konflux"),
             ("app.kubernetes.io/managed-by", "conforma-knative-service")]
          resolver := "cluster"
          taskRefKind := "task"
          taskRefName := config.TaskName
          taskRefNamespace := taskNamespace
          params :=
            [("IMAGES", snapshot.specRaw),
             ("POLICY_CONFIGURATION", createParamValue ecp),
             ("PUBLIC_KEY", createParamValue config.PublicKey),
             ("VSA_UPLOAD_URL", config.VsaUploadUrl),
             ("IGNORE_REKOR", createParamValue config.IgnoreRekor),
             ("STRICT", createParamValue config.Strict),
             ("WORKERS", createNumericParamValue config.Workers "1"),
             ("DEBUG", createParamValue config.Debug)]
          serviceAccountName := "conforma-vsa-generator"
          workspaceSecretName := config.VsaSigningKeySecretName })

/-- A configmap's `Data` map (key ↦ value); a namespace-indexed store of
configmaps named `taskrun-config` backs the cluster `Get`. -/
def ConfigMapData : Type := String → Option String

/-- The per-key extraction loop of `Service.readConfigMap`: a present key
sets the field, an absent one keeps the zero value `""`. -/
def configFromData (data : ConfigMapData) : TaskRunConfig :=
  { PolicyConfiguration := (data "POLICY_CONFIGURATION").getD ""
    PublicKey := (data "PUBLIC_KEY").getD ""
    IgnoreRekor := (data "IGNORE_REKOR").getD ""
    VsaSigningKeySecretName := (data "VSA_SIGNING_KEY_SECRET_NAME").getD ""
    VsaUploadUrl := (data "VSA_UPLOAD_URL").getD ""
    TaskName := (data "TASK_NAME").getD ""
    Strict := (data "STRICT").getD ""
    Workers := (data "WORKERS").getD ""
    Debug := (data "DEBUG").getD ""
    CacheTTLMinutes := (data "CACHE_TTL_MINUTES").getD ""
    TektonTimeoutSeconds := (data "TEKTON_TIMEOUT_SECONDS").getD ""
    VsaExpirationHours := (data "VSA_EXPIRATION_HOURS").getD ""
    TektonRetryAttempts := (data "TEKTON_RETRY_ATTEMPTS").getD ""
    TektonRetryDelaySeconds := (data "TEKTON_RETRY_DELAY_SECONDS").getD ""
    K8sRetryAttempts := (data "K8S_RETRY_ATTEMPTS").getD ""
    K8sRetryDelaySeconds := (data "K8S_RETRY_DELAY_SECONDS").getD ""
    CircuitBreakerThreshold := (data "CIRCUIT_BREAKER_THRESHOLD").getD ""
    CircuitBreakerTimeout := (data "CIRCUIT_BREAKER_TIMEOUT_SECONDS").getD ""
    TaskCpuRequest := (data "TASK_CPU_REQUEST").getD ""
    TaskMemoryRequest := (data "TASK_MEMORY_REQUEST").getD ""
    TaskMemoryLimit := (data "TASK_MEMORY_LIMIT").getD "" }

/-- `Service.readConfigMap` (main.go): consult the cache first; on a miss,
`Get` the configmap for the namespace from the store (`none` = NotFound ⇒
error), extract the config, and cache it under the same namespace key.
Returns the outcome together with the cache state after the call. -/
def readConfigMap (store : String → Option ConfigMapData)
    (cache : configMapCache) (now : Nat) (ns : String) :
    Except Unit TaskRunConfig × configMapCache :=
  match cache.get now ns with
  | (some config, cache') => (Except.ok config, cache')
  | (none, cache') =>
    match store ns with
    | none => (Except.error (), cache')
    | some data =>
      let config := configFromData data
      (Except.ok config, cache'.set now ns config)

/-- The mutable state a `Service` carries across events. -/
structure ServiceState where
  configCache : configMapCache
  circuitBreaker : CircuitBreakerState
deriving DecidableEq

/-- Outcome of processing one Snapshot event.  `ignored` and `skipped` and
`submitted` are the nil-error outcomes; the rest return an error. -/
inductive ProcessOutcome where
  /-- Wrong kind/apiVersion: acknowledged and dropped (nil error). -/
  | ignored : ProcessOutcome
  /-- `failed to read configmap`. -/
  | configError : ProcessOutcome
  /-- `failed to create taskrun` (spec build error). -/
  | buildError (e : BuildError) : ProcessOutcome
  /-- `No VSA creation needed for this snapshot` (nil error, no TaskRun). -/
  | skipped : ProcessOutcome
  /-- `failed to create taskrun in cluster after retries`. -/
  | submitError : ProcessOutcome
  /-- The TaskRun was submitted successfully (nil error). -/
  | submitted (tr : TaskRun) : ProcessOutcome
deriving DecidableEq

/-- Whether the outcome is a non-nil error returned to the event source. -/
def ProcessOutcome.isError : ProcessOutcome → Bool
  | ProcessOutcome.configError => true
  | ProcessOutcome.buildError _ => true
  | ProcessOutcome.submitError => true
  | _ => false

/-- `Service.processSnapshot` (main.go): read the config for
`configNamespace` (the `POD_NAMESPACE` environment value, `"default"` when
unset), build the TaskRun spec, treat a nil TaskRun as a successful skip, and
otherwise submit it through `retryWithBackoff`.  `tekton i` abstracts the
outcome of the i-th `TaskRuns(...).Create` call (its per-call timeout lives
inside that closure).  Returns the outcome, the service state after the
event, and the number of `Create` calls made. -/
def processSnapshot (cluster : Cluster) (store : String → Option ConfigMapData)
    (configNamespace : String) (now : Nat) (time : Nat → Nat)
    (tekton : Nat → Bool) (st : ServiceState) (snapshot : Snapshot) :
    ProcessOutcome × ServiceState × Nat :=
  match readConfigMap store st.configCache now configNamespace with
  | (Except.error _, cache') =>
      (ProcessOutcome.configError, ⟨cache', st.circuitBreaker⟩, 0)
  | (Except.ok config, cache') =>
    match createTaskRun cluster snapshot config configNamespace
        (now / 1000000000) with
    | Except.error e => (ProcessOutcome.buildError e, ⟨cache', st.circuitBreaker⟩, 0)
    | Except.ok none => (ProcessOutcome.skipped, ⟨cache', st.circuitBreaker⟩, 0)
    | Except.ok (some tr) =>
      match retryWithBackoff config now time st.circuitBreaker tekton with
      | (ExecResult.success, cb', calls) =>
          (ProcessOutcome.submitted tr, ⟨cache', cb'⟩, calls)
      | (_, cb', calls) => (ProcessOutcome.submitError, ⟨cache', cb'⟩, calls)

/-- The parsed CloudEvent payload (`CloudEventData`, main.go). -/
structure CloudEventData where
  apiVersion : String
  kind : String
  name : String
  ns : String
  spec : Option Json
  specRaw : String

/-- `Service.handleCloudEvent` (main.go): accept only
`Snapshot`/`appstudio.redhat.com/v1alpha1` events (others are dropped with a
nil error) and hand the assembled Snapshot to `processSnapshot`. -/
def handleCloudEvent (cluster : Cluster) (store : String → Option ConfigMapData)
    (configNamespace : String) (now : Nat) (time : Nat → Nat)
    (tekton : Nat → Bool) (st : ServiceState) (ev : CloudEventData) :
    ProcessOutcome × ServiceState × Nat :=
  if ev.kind ≠ "Snapshot" ∨ ev.apiVersion ≠ "appstudio.redhat.com/v1alpha1" then
    (ProcessOutcome.ignored, st, 0)
  else
    processSnapshot cluster store configNamespace now time tekton st
      ⟨ev.name, ev.ns, ev.spec, ev.specRaw⟩

/-! ### Concrete fixtures used by witnesses and counterexamples -/

/-- A ReleasePlan for application `app-a` in `ns1`, pointing at admission
`rpa-1` in `target-ns` (spec §8 scenario setup). -/
def rpAppA : ReleasePlan := ⟨"rp-1", "ns1", "app-a", "target-ns", "rpa-1"⟩

/-- The admission `rpa-1` with an explicit policy. -/
def rpaCustom : ReleasePlanAdmission := ⟨"rpa-1", "target-ns", "custom-policy"⟩

/-- The admission `rpa-1` with an empty policy field. -/
def rpaNoPolicy : ReleasePlanAdmission := ⟨"rpa-1", "target-ns", ""⟩

/-- A cluster whose single plan resolves to an explicit policy. -/
def clusterCustom : Cluster := ⟨[rpAppA], [rpaCustom]⟩

/-- A cluster whose single plan resolves to an admission without a policy. -/
def clusterDefaultPolicy : Cluster := ⟨[rpAppA], [rpaNoPolicy]⟩

/-- A Snapshot of application `app-a` in `ns1` with a well-formed spec. -/
def snapA : Snapshot :=
  ⟨"snap-1", "ns1", some (Json.obj [("application", Json.str "app-a")]),
   "\x7b\"application\":\"app-a\"\x7d"⟩

/-- A Snapshot of application `app-b` in `ns1`: no plan matches it. -/
def snapB : Snapshot :=
  ⟨"snap-2", "ns1", some (Json.obj [("application", Json.str "app-b")]),
   "\x7b\"application\":\"app-b\"\x7d"⟩

/-- A configmap `Data` with the two required keys set. -/
def dataSvc : ConfigMapData := fun k =>
  if k = "TASK_NAME" then some "vsa-task"
  else if k = "VSA_UPLOAD_URL" then some "https://vsa.example/upload"
  else none

/-- The configuration extracted from `dataSvc`. -/
def cfgSvc : TaskRunConfig := configFromData dataSvc

/-- A store holding a `taskrun-config` configmap only in the service's own
namespace `svc-ns` (and in particular none in the event namespace `ns1`). -/
def storeSvc : String → Option ConfigMapData :=
  fun ns => if ns = "svc-ns" then some dataSvc else none

/-- A fresh service state: empty cache (5-minute TTL in nanoseconds) and a
zero-valued circuit breaker, as `NewServiceWithDependencies` builds them. -/
def st0 : ServiceState := ⟨⟨[], 300000000000⟩, ⟨0, 0, false⟩⟩

/-- A cache holding one entry for `ns1`, stamped at time 0, with TTL 10. -/
def cacheOneEntry : configMapCache := ⟨[("ns1", ⟨emptyConfig, 0⟩)], 10⟩

/-- A configuration with a job name but no upload URL. -/
def cfgNoUrl : TaskRunConfig := { TaskName := "vsa-task" }

/-- Processing of the matching Snapshot `snapA` against `storeSvc`: the event
namespace is `ns1` while the service configuration namespace is `svc-ns`. -/
def runC7 : ProcessOutcome × ServiceState × Nat :=
  processSnapshot clusterCustom storeSvc "svc-ns" 100 (fun _ => 100)
    (fun _ => true) st0 snapA

/-- An accepted CloudEvent whose spec payload is not valid JSON. -/
def evBadSpec : CloudEventData :=
  ⟨"appstudio.redhat.com/v1alpha1", "Snapshot", "snap-3", "ns1", none,
   "not-json"⟩

/-! ### Shared lemmas -/

/-- A key just written is found by a map read. -/
theorem lookupEntry_setKey (l : List (String × cachedConfigMap)) (key : String)
    (e : cachedConfigMap) : lookupEntry (setKey l key e) key = some e := by
  induction l with
  | nil => simp [setKey, lookupEntry]
  | cons kv rest ih =>
    obtain ⟨k, e0⟩ := kv
    by_cases h : k = key
    · simp [setKey, h, lookupEntry]
    · simp [setKey, h, lookupEntry, ih]

theorem parsePosInt_pos (s : String) (d : Nat) (hd : 0 < d) :
    0 < parsePosInt s d := by
  unfold parsePosInt
  split
  · exact hd
  · split
    · split
      · omega
      · exact hd
    · exact hd

theorem maxAttemptsOf_pos (config : TaskRunConfig) : 0 < maxAttemptsOf config :=
  parsePosInt_pos _ _ (by decide)

/-! ### C5 / C6: Configuration Cache -/

/-- C5: a `get` within the TTL after a `set` of the same namespace returns
the stored record; and an entry whose age exceeds the TTL is never
returned — `get` reports a miss (lazy expiry at read time). -/
theorem cache_set_get_and_expiry (c : configMapCache) (key : String)
    (r : TaskRunConfig) (now now' : Nat) :
    (now' - now < c.ttl →
      ((c.set now key r).get now' key).1 = some r) ∧
    (∀ e, lookupEntry c.cache key = some e → c.ttl < now' - e.timestamp →
      (c.get now' key).1 = none) := by
  constructor
  · intro h
    simp [configMapCache.set, configMapCache.get, lookupEntry_setKey, h]
  · intro e he h
    have hno : ¬ (now' - e.timestamp < c.ttl) := by omega
    simp [configMapCache.get, he, hno]

theorem cache_set_get_and_expiry_witness :
    ((configMapCache.set ⟨[], 300⟩ 10 "ns1" emptyConfig).get 20 "ns1").1 =
      some emptyConfig ∧
    (configMapCache.get cacheOneEntry 11 "ns1").1 = none :=
  ⟨(cache_set_get_and_expiry ⟨[], 300⟩ "ns1" emptyConfig 10 20).1 (by decide),
   (cache_set_get_and_expiry cacheOneEntry "ns1" emptyConfig 0 11).2
     ⟨emptyConfig, 0⟩ (by decide) (by decide)⟩

/-- C6 counterexample: a `get` miss is not always side-effect free.  On the
concrete cache holding one entry for `ns1` stamped at 0 with TTL 10, the
`get` at time 11 misses — and deletes the expired entry, so the stored
entries change from one entry to none. -/
theorem cache_get_expired_miss_mutates :
    (configMapCache.get cacheOneEntry 11 "ns1").1 = none ∧
    ((configMapCache.get cacheOneEntry 11 "ns1").2).cache = [] ∧
    cacheOneEntry.cache ≠ [] := by decide

/-- C6 amended: a miss because no entry exists leaves the cache unchanged;
a miss because the entry's age reached the TTL deletes that entry (Go
`delete(c.cache, key)` under the read path) and otherwise changes nothing. -/
theorem cache_get_miss_effects (c : configMapCache) (key : String) (now : Nat) :
    (lookupEntry c.cache key = none → c.get now key = (none, c)) ∧
    (∀ e, lookupEntry c.cache key = some e → ¬ (now - e.timestamp < c.ttl) →
      c.get now key = (none, ⟨eraseKey c.cache key, c.ttl⟩)) := by
  constructor
  · intro h
    simp [configMapCache.get, h]
  · intro e he h
    simp [configMapCache.get, he, h]

theorem cache_get_miss_effects_witness :
    configMapCache.get ⟨[], 7⟩ 3 "ns1" = (none, ⟨[], 7⟩) ∧
    configMapCache.get cacheOneEntry 11 "ns1" =
      (none, ⟨eraseKey cacheOneEntry.cache "ns1", 10⟩) :=
  ⟨(cache_get_miss_effects ⟨[], 7⟩ "ns1" 3).1 (by decide),
   (cache_get_miss_effects cacheOneEntry "ns1" 11).2 ⟨emptyConfig, 0⟩
     (by decide) (by decide)⟩

/-! ### C2 / C3 / C9: Resilience Controller -/

/-- With an always-failing function the attempt loop consumes its whole
budget: every remaining attempt invokes `fn` once. -/
theorem retryLoop_all_fail (config : TaskRunConfig) (fn : Nat → Bool)
    (time : Nat → Nat) (hfn : ∀ n, fn n = false) :
    ∀ remaining calls cb,
      (retryLoop config fn time calls remaining cb).2.2 = calls + remaining := by
  intro remaining
  induction remaining with
  | zero => intro calls cb; simp [retryLoop]
  | succ r ih =>
    intro calls cb
    by_cases h : r = 0
    · subst h; simp [retryLoop, hfn]
    · simp [retryLoop, hfn, h, ih]
      omega

/-- If `fn` fails on its first `k` invocations (counted from `calls`) and
succeeds on the next one, with at least `k + 1` attempts remaining, the loop
stops at the first success: `k + 1` invocations in total, and the circuit
state is reset by `recordSuccess` (failures 0, closed). -/
theorem retryLoop_first_success (config : TaskRunConfig) (fn : Nat → Bool)
    (time : Nat → Nat) :
    ∀ k calls remaining cb, k < remaining →
      (∀ i, i < k → fn (calls + i) = false) → fn (calls + k) = true →
      ∃ lf, retryLoop config fn time calls remaining cb =
        (ExecResult.success, ⟨0, lf, false⟩, calls + k + 1) := by
  intro k
  induction k with
  | zero =>
    intro calls remaining cb hlt hf hs
    match remaining, hlt with
    | r + 1, _ =>
      have hs0 : fn calls = true := by simpa using hs
      exact ⟨cb.lastFailure, by simp [retryLoop, hs0, recordSuccess]⟩
  | succ j ih =>
    intro calls remaining cb hlt hf hs
    match remaining, hlt with
    | r + 1, hlt =>
      have h0 : fn calls = false := by simpa using hf 0 (Nat.succ_pos j)
      have hr : r ≠ 0 := by omega
      obtain ⟨lf, hl⟩ := ih (calls + 1) r (recordFailure config (time calls) cb)
        (by omega)
        (fun i hi => by
          have := hf (i + 1) (by omega)
          simpa [Nat.add_comm, Nat.add_left_comm] using this)
        (by simpa [Nat.add_comm, Nat.add_left_comm] using hs)
      refine ⟨lf, ?_⟩
      have harith : calls + 1 + j + 1 = calls + (j + 1) + 1 := by omega
      rw [harith] at hl
      simp [retryLoop, h0, hr, hl]

/-- C2: with a function that always fails and a breaker whose consecutive
failure counter has reached the threshold (hence the circuit is open), an
`execute` call while the time since the last failure has not exceeded the
circuit timeout fails fast with the circuit-open error, never invoking the
function and leaving the state untouched; once the timeout has elapsed, the
next call runs the attempt loop again, invoking the function (its full
attempt budget, which is positive). -/
theorem retryWithBackoff_open_blocks_then_probes (config : TaskRunConfig)
    (now : Nat) (time : Nat → Nat) (cb : CircuitBreakerState) (fn : Nat → Bool)
    (hfn : ∀ n, fn n = false)
    (hthr : cbThreshold config ≤ cb.failures)
    (hopen : cb.isOpen = true) :
    (now - cb.lastFailure ≤ cbTimeoutNs config →
      retryWithBackoff config now time cb fn =
        (ExecResult.circuitOpen, cb, 0)) ∧
    (cbTimeoutNs config < now - cb.lastFailure →
      (retryWithBackoff config now time cb fn).2.2 = maxAttemptsOf config ∧
      0 < (retryWithBackoff config now time cb fn).2.2) := by
  constructor
  · intro h
    have hno : ¬ (cbTimeoutNs config < now - cb.lastFailure) := by omega
    have hc : checkCircuitBreaker config now cb = true := by
      simp [checkCircuitBreaker, hopen, hno]
    simp [retryWithBackoff, hc]
  · intro h
    have hc : checkCircuitBreaker config now cb = false := by
      simp [checkCircuitBreaker, hopen, h]
    have hcount := retryLoop_all_fail config fn time hfn (maxAttemptsOf config) 0 cb
    constructor
    · simpa [retryWithBackoff, hc] using hcount
    · have := maxAttemptsOf_pos config
      simp [retryWithBackoff, hc, hcount]
      omega

theorem retryWithBackoff_open_blocks_then_probes_witness :
    retryWithBackoff emptyConfig 10000000000 (fun _ => 0) ⟨5, 0, true⟩
      (fun _ => false) = (ExecResult.circuitOpen, ⟨5, 0, true⟩, 0) ∧
    (retryWithBackoff emptyConfig 31000000000 (fun _ => 0) ⟨5, 0, true⟩
      (fun _ => false)).2.2 = 3 := by
  constructor
  · exact (retryWithBackoff_open_blocks_then_probes emptyConfig 10000000000
      (fun _ => 0) ⟨5, 0, true⟩ (fun _ => false) (fun _ => rfl) (by decide)
      rfl).1 (by decide)
  · have h := (retryWithBackoff_open_blocks_then_probes emptyConfig 31000000000
      (fun _ => 0) ⟨5, 0, true⟩ (fun _ => false) (fun _ => rfl) (by decide)
      rfl).2 (by decide)
    exact h.1.trans (by decide)

/-- C9: an `execute` call that the open circuit blocks (timeout not yet
exceeded) returns the circuit-open error with the circuit state unchanged —
failure counter, last-failure timestamp and open flag all as before — and
zero invocations of the wrapped function. -/
theorem retryWithBackoff_blocked_frame (config : TaskRunConfig) (now : Nat)
    (time : Nat → Nat) (cb : CircuitBreakerState) (fn : Nat → Bool)
    (hopen : cb.isOpen = true)
    (helapsed : now - cb.lastFailure ≤ cbTimeoutNs config) :
    retryWithBackoff config now time cb fn = (ExecResult.circuitOpen, cb, 0) := by
  have hno : ¬ (cbTimeoutNs config < now - cb.lastFailure) := by omega
  have hc : checkCircuitBreaker config now cb = true := by
    simp [checkCircuitBreaker, hopen, hno]
  simp [retryWithBackoff, hc]

theorem retryWithBackoff_blocked_frame_witness :
    retryWithBackoff emptyConfig 200 (fun _ => 0) ⟨7, 100, true⟩
      (fun _ => true) = (ExecResult.circuitOpen, ⟨7, 100, true⟩, 0) :=
  retryWithBackoff_blocked_frame emptyConfig 200 (fun _ => 0) ⟨7, 100, true⟩
    (fun _ => true) rfl (by decide)

/-- C3: if the circuit does not block the call and the function fails on
exactly its first `k` invocations with `k < maxAttempts` and succeeds on
invocation `k + 1`, `execute` returns success after exactly `k + 1`
invocations, and the first success resets the failure counter to zero and
forces the circuit closed. -/
theorem retryWithBackoff_eventual_success (config : TaskRunConfig) (now : Nat)
    (time : Nat → Nat) (cb : CircuitBreakerState) (fn : Nat → Bool) (k : Nat)
    (hk : k < maxAttemptsOf config)
    (hclosed : checkCircuitBreaker config now cb = false)
    (hfail : ∀ i, i < k → fn i = false)
    (hsucc : fn k = true) :
    ∃ lf, retryWithBackoff config now time cb fn =
      (ExecResult.success, ⟨0, lf, false⟩, k + 1) := by
  obtain ⟨lf, h⟩ := retryLoop_first_success config fn time k 0
    (maxAttemptsOf config) cb hk (fun i hi => by simpa using hfail i hi)
    (by simpa using hsucc)
  refine ⟨lf, ?_⟩
  simpa [retryWithBackoff, hclosed] using h

theorem retryWithBackoff_eventual_success_witness :
    ∃ lf, retryWithBackoff emptyConfig 0 (fun _ => 5) ⟨0, 0, false⟩
      (fun i => decide (1 ≤ i)) = (ExecResult.success, ⟨0, lf, false⟩, 2) :=
  retryWithBackoff_eventual_success emptyConfig 0 (fun _ => 5) ⟨0, 0, false⟩
    (fun i => decide (1 ≤ i)) 1 (by decide) (by decide) (by decide) (by decide)

/-! ### C4: policy resolution and its single recovery path -/

/-- C4: when the chain succeeds through to a ReleasePlanAdmission, the
resolved policy is `"<admissionNamespace>/<policyName>"` with the policy name
defaulted to `registry-standard` exactly when the admission's policy field is
empty; and every earlier failure — spec unmarshal, plan lookup, admission
lookup — propagates as an error (the defaulting is the only recovery). -/
theorem findEnterpriseContractPolicy_spec (cluster : Cluster)
    (snapshot : Snapshot) :
    (∀ app rp rpa, unmarshalApplication snapshot.spec = Except.ok app →
      FindReleasePlan cluster app snapshot.ns = Except.ok rp →
      FindReleasePlanAdmission cluster rp = Except.ok rpa →
      FindEnterpriseContractPolicy cluster snapshot =
        Except.ok (rpa.ns ++ "/" ++
          (if rpa.policy = "" then defaultEcpName else rpa.policy))) ∧
    (∀ e, unmarshalApplication snapshot.spec = Except.error e →
      FindEnterpriseContractPolicy cluster snapshot = Except.error e) ∧
    (∀ app e, unmarshalApplication snapshot.spec = Except.ok app →
      FindReleasePlan cluster app snapshot.ns = Except.error e →
      FindEnterpriseContractPolicy cluster snapshot = Except.error e) ∧
    (∀ app rp e, unmarshalApplication snapshot.spec = Except.ok app →
      FindReleasePlan cluster app snapshot.ns = Except.ok rp →
      FindReleasePlanAdmission cluster rp = Except.error e →
      FindEnterpriseContractPolicy cluster snapshot = Except.error e) := by
  refine ⟨?_, ?_, ?_, ?_⟩
  · intro app rp rpa h1 h2 h3
    simp [FindEnterpriseContractPolicy, h1, h2, h3]
  · intro e h1
    simp [FindEnterpriseContractPolicy, h1]
  · intro app e h1 h2
    simp [FindEnterpriseContractPolicy, h1, h2]
  · intro app rp e h1 h2 h3
    simp [FindEnterpriseContractPolicy, h1, h2, h3]

theorem findEnterpriseContractPolicy_spec_witness :
    FindEnterpriseContractPolicy clusterCustom snapA =
      Except.ok "target-ns/custom-policy" ∧
    FindEnterpriseContractPolicy clusterDefaultPolicy snapA =
      Except.ok "target-ns/registry-standard" := by
  constructor
  · exact ((findEnterpriseContractPolicy_spec clusterCustom snapA).1 "app-a"
      rpAppA rpaCustom (by decide) (by decide) (by decide)).trans (by decide)
  · exact ((findEnterpriseContractPolicy_spec clusterDefaultPolicy snapA).1
      "app-a" rpAppA rpaNoPolicy (by decide) (by decide) (by decide)).trans
      (by decide)

/-! ### C1: zero matching ReleasePlans is a successful skip -/

/-- When no plan of the namespace carries the application, the plan lookup
fails (either no plans at all or none matching the application). -/
theorem FindReleasePlan_no_match (cluster : Cluster) (app ns : String)
    (h : ∀ rp ∈ cluster.releasePlans, rp.ns = ns → rp.application ≠ app) :
    ∃ e, FindReleasePlan cluster app ns = Except.error e := by
  have hm : (cluster.releasePlans.filter fun rp => rp.ns = ns).filter
      (fun rp => rp.application = app) = [] := by
    rw [List.filter_eq_nil_iff]
    intro a ha
    rw [List.mem_filter] at ha
    obtain ⟨hmem, hns⟩ := ha
    have := h a hmem (by simpa using hns)
    simpa using this
  by_cases hemp : (cluster.releasePlans.filter fun rp => rp.ns = ns).isEmpty
  · exact ⟨LookupError.noPlansInNamespace ns, by simp [FindReleasePlan, hemp]⟩
  · exact ⟨LookupError.noPlanForApplication app,
      by simp [FindReleasePlan, hemp, hm]⟩

/-- C1: a Snapshot whose application has zero matching ReleasePlans in its
namespace (none at all, or none with a matching application field) is
processed successfully with no TaskRun submitted: the build step skips and
the scheduler is never called.  The hypotheses pin down the rest of the
pipeline being healthy: the configmap read succeeds, the configured job name
is set, and the spec payload is well-formed. -/
theorem processSnapshot_no_matching_plans (cluster : Cluster)
    (store : String → Option ConfigMapData) (configNamespace : String)
    (now : Nat) (time : Nat → Nat) (tekton : Nat → Bool) (st : ServiceState)
    (snapshot : Snapshot) (config : TaskRunConfig) (cache' : configMapCache)
    (app : String)
    (hread : readConfigMap store st.configCache now configNamespace =
      (Except.ok config, cache'))
    (htask : config.TaskName ≠ "")
    (hcomp : unmarshalComponentsOk snapshot.spec = true)
    (happ : unmarshalApplication snapshot.spec = Except.ok app)
    (hnone : ∀ rp ∈ cluster.releasePlans, rp.ns = snapshot.ns →
      rp.application ≠ app) :
    processSnapshot cluster store configNamespace now time tekton st snapshot =
      (ProcessOutcome.skipped, ⟨cache', st.circuitBreaker⟩, 0) := by
  obtain ⟨e, he⟩ := FindReleasePlan_no_match cluster app snapshot.ns hnone
  have hecp : FindEnterpriseContractPolicy cluster snapshot = Except.error e := by
    simp [FindEnterpriseContractPolicy, happ, he]
  have hct : createTaskRun cluster snapshot config configNamespace
      (now / 1000000000) = Except.ok none := by
    simp [createTaskRun, htask, hcomp, hecp]
  simp [processSnapshot, hread, hct]

theorem processSnapshot_no_matching_plans_witness :
    processSnapshot clusterCustom storeSvc "svc-ns" 0 (fun _ => 0)
      (fun _ => false) st0 snapB =
      (ProcessOutcome.skipped,
       ⟨⟨[("svc-ns", ⟨cfgSvc, 0⟩)], 300000000000⟩, ⟨0, 0, false⟩⟩, 0) :=
  processSnapshot_no_matching_plans clusterCustom storeSvc "svc-ns" 0
    (fun _ => 0) (fun _ => false) st0 snapB cfgSvc
    ⟨[("svc-ns", ⟨cfgSvc, 0⟩)], 300000000000⟩ "app-b" (by decide) (by decide)
    (by decide) (by decide) (by decide)

/-! ### C7: which namespace keys the configuration lookup -/

/-- The configuration cache after processing an event is exactly the cache
left behind by the `readConfigMap` call; no later pipeline step touches it. -/
theorem processSnapshot_cache_frame (cluster : Cluster)
    (store : String → Option ConfigMapData) (cfgNs : String) (now : Nat)
    (time : Nat → Nat) (tekton : Nat → Bool) (st : ServiceState)
    (snapshot : Snapshot) :
    ((processSnapshot cluster store cfgNs now time tekton st snapshot).2.1).configCache =
      (readConfigMap store st.configCache now cfgNs).2 := by
  unfold processSnapshot
  rcases h : readConfigMap store st.configCache now cfgNs with ⟨r, cache'⟩
  cases r with
  | error e => simp
  | ok config =>
    rcases hc : createTaskRun cluster snapshot config cfgNs (now / 1000000000)
      with e | o
    · simp [hc]
    · cases o with
      | none => simp [hc]
      | some tr =>
        rcases hr : retryWithBackoff config now time st.circuitBreaker tekton
          with ⟨res, cb', calls⟩
        cases res <;> simp [hc, hr]

/-- C7 counterexample: the configuration is NOT keyed by the event's
namespace.  The event namespace `ns1` has no configmap anywhere in the store,
yet processing succeeds end to end — it builds and submits the TaskRun — and
the final cache holds an entry under the service namespace `svc-ns` and none
under `ns1`. -/
theorem processSnapshot_event_namespace_not_config_key :
    runC7.1.isError = false ∧
    runC7.1 ≠ ProcessOutcome.skipped ∧
    lookupEntry runC7.2.1.configCache.cache "ns1" = none ∧
    lookupEntry runC7.2.1.configCache.cache "svc-ns" = some ⟨cfgSvc, 100⟩ ∧
    (storeSvc "ns1").isNone = true := by decide

/-- C7 amended: the configuration record is resolved through the cache keyed
by the service's own configuration namespace (`POD_NAMESPACE`, `"default"`
when unset), not the event's: starting from an empty cache, a processed
event fetches the configmap of that namespace from the store and caches the
extracted record under that same key. -/
theorem processSnapshot_config_keyed_by_service_namespace (cluster : Cluster)
    (store : String → Option ConfigMapData) (cfgNs : String) (now : Nat)
    (time : Nat → Nat) (tekton : Nat → Bool) (cb : CircuitBreakerState)
    (snapshot : Snapshot) (ttl : Nat) (data : ConfigMapData)
    (hstore : store cfgNs = some data) :
    ((processSnapshot cluster store cfgNs now time tekton ⟨⟨[], ttl⟩, cb⟩
        snapshot).2.1).configCache =
      ⟨[(cfgNs, ⟨configFromData data, now⟩)], ttl⟩ := by
  have hread : readConfigMap store (⟨[], ttl⟩ : configMapCache) now cfgNs =
      (Except.ok (configFromData data),
       ⟨[(cfgNs, ⟨configFromData data, now⟩)], ttl⟩) := by
    simp [readConfigMap, configMapCache.get, lookupEntry, hstore,
      configMapCache.set, setKey]
  rw [processSnapshot_cache_frame]
  show (readConfigMap store ⟨[], ttl⟩ now cfgNs).2 = _
  rw [hread]

theorem processSnapshot_config_keyed_by_service_namespace_witness :
    ((processSnapshot clusterCustom storeSvc "svc-ns" 0 (fun _ => 0)
        (fun _ => false) ⟨⟨[], 300000000000⟩, ⟨0, 0, false⟩⟩
        snapB).2.1).configCache =
      ⟨[("svc-ns", ⟨configFromData dataSvc, 0⟩)], 300000000000⟩ :=
  processSnapshot_config_keyed_by_service_namespace clusterCustom storeSvc
    "svc-ns" 0 (fun _ => 0) (fun _ => false) ⟨0, 0, false⟩ snapB 300000000000
    dataSvc rfl

/-! ### C8: required configuration fields of the Job Spec Builder -/

/-- C8 counterexample: an empty upload URL does not always make the build
return an error.  With the upload URL empty but policy resolution failing
(no plan matches `app-b`), `createTaskRun` skips with `(nil, nil)` — a
success — because the ECP lookup runs before the upload-URL check. -/
theorem createTaskRun_skip_ignores_missing_upload_url :
    cfgNoUrl.VsaUploadUrl = "" ∧
    createTaskRun clusterCustom snapB cfgNoUrl "svc-ns" 0 = Except.ok none := by
  decide

/-- C8 amended: an empty configured job name always fails the build; an
empty upload URL fails the build whenever the build gets past the earlier
stages — job name set, spec well-formed, and policy resolution successful
(when resolution fails, the builder skips with no error regardless of the
upload URL). -/
theorem createTaskRun_required_fields (cluster : Cluster)
    (snapshot : Snapshot) (config : TaskRunConfig) (taskNamespace : String)
    (nowSec : Nat) :
    (config.TaskName = "" →
      createTaskRun cluster snapshot config taskNamespace nowSec =
        Except.error BuildError.missingTaskName) ∧
    (config.TaskName ≠ "" → unmarshalComponentsOk snapshot.spec = true →
      (∃ ecp, FindEnterpriseContractPolicy cluster snapshot = Except.ok ecp) →
      config.VsaUploadUrl = "" →
      createTaskRun cluster snapshot config taskNamespace nowSec =
        Except.error BuildError.missingUploadUrl) := by
  constructor
  · intro h
    simp [createTaskRun, h]
  · rintro h1 h2 ⟨ecp, h3⟩ h4
    simp [createTaskRun, h1, h2, h3, h4]

theorem createTaskRun_required_fields_witness :
    createTaskRun clusterCustom snapA emptyConfig "svc-ns" 0 =
      Except.error BuildError.missingTaskName ∧
    createTaskRun clusterCustom snapA cfgNoUrl "svc-ns" 0 =
      Except.error BuildError.missingUploadUrl := by
  constructor
  · exact (createTaskRun_required_fields clusterCustom snapA emptyConfig
      "svc-ns" 0).1 rfl
  · exact (createTaskRun_required_fields clusterCustom snapA cfgNoUrl
      "svc-ns" 0).2 (by decide) (by decide)
      ⟨"target-ns/custom-policy", by decide⟩ rfl

/-! ### C10: malformed spec payloads are errors, not skips -/

/-- C10: an accepted event (kind `Snapshot`, apiVersion
`appstudio.redhat.com/v1alpha1`) whose spec payload is not valid JSON is
processed with an error and no TaskRun submission: whichever branch the
config read takes, the pipeline stops with an error outcome before the
scheduler is ever called — never with the silent skip. -/
theorem handleCloudEvent_invalid_spec (cluster : Cluster)
    (store : String → Option ConfigMapData) (cfgNs : String) (now : Nat)
    (time : Nat → Nat) (tekton : Nat → Bool) (st : ServiceState)
    (ev : CloudEventData)
    (hkind : ev.kind = "Snapshot")
    (hver : ev.apiVersion = "appstudio.redhat.com/v1alpha1")
    (hspec : ev.spec = none) :
    ((handleCloudEvent cluster store cfgNs now time tekton st ev).1).isError =
      true ∧
    (handleCloudEvent cluster store cfgNs now time tekton st ev).2.2 = 0 := by
  have hcond : ¬ (ev.kind ≠ "Snapshot" ∨
      ev.apiVersion ≠ "appstudio.redhat.com/v1alpha1") := by
    simp [hkind, hver]
  unfold handleCloudEvent
  rw [if_neg hcond]
  unfold processSnapshot
  rcases h : readConfigMap store st.configCache now cfgNs with ⟨r, cache'⟩
  cases r with
  | error e => simp [ProcessOutcome.isError]
  | ok config =>
    have hct : createTaskRun cluster ⟨ev.name, ev.ns, ev.spec, ev.specRaw⟩
        config cfgNs (now / 1000000000) =
        Except.error (if config.TaskName = "" then BuildError.missingTaskName
          else BuildError.specUnmarshal) := by
      by_cases ht : config.TaskName = ""
      · simp [createTaskRun, ht]
      · simp [createTaskRun, ht, hspec, unmarshalComponentsOk]
    simp [hct, ProcessOutcome.isError]

theorem handleCloudEvent_invalid_spec_witness :
    ((handleCloudEvent clusterCustom storeSvc "svc-ns" 0 (fun _ => 0)
        (fun _ => false) st0 evBadSpec).1).isError = true ∧
    (handleCloudEvent clusterCustom storeSvc "svc-ns" 0 (fun _ => 0)
        (fun _ => false) st0 evBadSpec).2.2 = 0 :=
  handleCloudEvent_invalid_spec clusterCustom storeSvc "svc-ns" 0 (fun _ => 0)
    (fun _ => false) st0 evBadSpec rfl rfl rfl
